import Mathlib

/-!
Verification of the insight-to-job matching and scoring engine of the
job-analyzer application (Django backend, files
`backend/jobs/embedding_service.py`, `backend/jobs/insights_views.py`,
`backend/jobs/models.py`).

The Python code is shallowly embedded: float arithmetic is modelled by
the real numbers, Python lists by Lean lists, optional values by
`Option`, and the database tables by lists of rows.  Python's
`list.sort` (Timsort) is a stable sort; it is modelled by a stable
insertion sort `sortDescBy`, which computes the same output as any
stable descending sort by the same key.
-/

namespace JobAnalyzer

/-! ### Stable descending sort

Model of Python's `list.sort(key=..., reverse=True)` (a stable sort,
here realised as a stable insertion sort: an element is placed before
exactly those elements of the already sorted tail whose key is
strictly smaller, so elements with equal keys keep their input order).
-/

variable {α : Type} {β : Type} [LinearOrder β]

/-- Insert `x` into `l` in front of the first element whose key is at most
the key of `x` (elements with strictly larger keys are passed over). -/
def insertDesc (key : α → β) (x : α) : List α → List α
  | [] => [x]
  | y :: ys => if key y ≤ key x then x :: y :: ys else y :: insertDesc key x ys

/-- Stable descending sort by `key`: the model of Python's
`list.sort(key=..., reverse=True)`. -/
def sortDescBy (key : α → β) : List α → List α
  | [] => []
  | x :: xs => insertDesc key x (sortDescBy key xs)

theorem length_insertDesc (key : α → β) (x : α) (l : List α) :
    (insertDesc key x l).length = l.length + 1 := by
  induction l with
  | nil => rfl
  | cons y ys ih =>
    by_cases h : key y ≤ key x <;> simp [insertDesc, h, ih]

theorem insertDesc_perm (key : α → β) (x : α) (l : List α) :
    List.Perm (insertDesc key x l) (x :: l) := by
  induction l with
  | nil => rfl
  | cons y ys ih =>
    by_cases h : key y ≤ key x
    · simp [insertDesc, h]
    · simp only [insertDesc, h, if_false]
      exact (ih.cons y).trans (List.Perm.swap x y ys)

theorem sortDescBy_perm (key : α → β) (l : List α) :
    List.Perm (sortDescBy key l) l := by
  induction l with
  | nil => rfl
  | cons x xs ih =>
    exact (insertDesc_perm key x (sortDescBy key xs)).trans (ih.cons x)

theorem length_sortDescBy (key : α → β) (l : List α) :
    (sortDescBy key l).length = l.length :=
  (sortDescBy_perm key l).length_eq

theorem pairwise_insertDesc (key : α → β) (x : α) (l : List α)
    (hl : l.Pairwise (fun a b => key b ≤ key a)) :
    (insertDesc key x l).Pairwise (fun a b => key b ≤ key a) := by
  induction l with
  | nil => simp [insertDesc]
  | cons y ys ih =>
    rcases List.pairwise_cons.1 hl with ⟨hy, hys⟩
    by_cases h : key y ≤ key x
    · simp only [insertDesc, h, if_true]
      refine List.pairwise_cons.2 ⟨?_, hl⟩
      intro z hz
      rcases List.mem_cons.1 hz with hz | hz
      · subst hz
        exact h
      · exact le_trans (hy z hz) h
    · simp only [insertDesc, h, if_false]
      refine List.pairwise_cons.2 ⟨?_, ih hys⟩
      intro z hz
      have hz' := (insertDesc_perm key x ys).mem_iff.1 hz
      rcases List.mem_cons.1 hz' with hz' | hz'
      · subst hz'
        exact le_of_lt (lt_of_not_le h)
      · exact hy z hz'

theorem pairwise_sortDescBy (key : α → β) (l : List α) :
    (sortDescBy key l).Pairwise (fun a b => key b ≤ key a) := by
  induction l with
  | nil => simp [sortDescBy]
  | cons x xs ih => exact pairwise_insertDesc key x (sortDescBy key xs) ih

theorem filter_insertDesc (key : α → β) (s : β) (x : α) (l : List α) :
    (insertDesc key x l).filter (fun a => decide (key a = s)) =
      if key x = s then x :: l.filter (fun a => decide (key a = s))
      else l.filter (fun a => decide (key a = s)) := by
  induction l with
  | nil =>
    by_cases hx : key x = s <;> simp [insertDesc, List.filter, hx]
  | cons y ys ih =>
    by_cases h : key y ≤ key x
    · rw [insertDesc, if_pos h]
      by_cases hx : key x = s <;> by_cases hy : key y = s <;>
        simp [List.filter_cons, hx, hy]
    · rw [insertDesc, if_neg h]
      by_cases hy : key y = s <;> by_cases hx : key x = s
      · exact absurd (le_of_eq (hy.trans hx.symm)) h
      · simp [List.filter_cons, hy, hx, ih]
      · simp [List.filter_cons, hy, hx, ih]
      · simp [List.filter_cons, hy, hx, ih]

/-- Stability of the sort: elements sharing any key value `s` appear in the
sorted output in exactly their input order. -/
theorem filter_sortDescBy (key : α → β) (s : β) (l : List α) :
    (sortDescBy key l).filter (fun a => decide (key a = s)) =
      l.filter (fun a => decide (key a = s)) := by
  induction l with
  | nil => rfl
  | cons x xs ih =>
    by_cases hx : key x = s <;>
      simp [sortDescBy, filter_insertDesc, hx, List.filter_cons, ih]

/-! ### VectorMath: the numeric routines of `EmbeddingService`

Python floats are modelled by the real numbers, so the statements are
about the exact arithmetic the code implements.  `np.dot` on two 1-D
arrays of equal length is the dot product; on arrays of mismatched
lengths it raises a `ValueError`, which the blanket `except Exception`
handler of `calculate_similarity` turns into the return value `0.0` —
the length guard below models that exception path.
-/

/-- Dot product of two equal-length vectors, the model of `np.dot`
on 1-D arrays. -/
noncomputable def dotProduct (a b : List ℝ) : ℝ :=
  (List.zipWith (fun x y => x * y) a b).sum

/-- Euclidean norm, the model of `np.linalg.norm`. -/
noncomputable def magnitude (a : List ℝ) : ℝ :=
  Real.sqrt (dotProduct a a)

/-- Model of `EmbeddingService.calculate_similarity`: cosine similarity
remapped to the unit interval, `0.0` when either magnitude is zero, and
`0.0` for mismatched lengths (the `except` path, see the section header). -/
noncomputable def calculate_similarity (embedding1 embedding2 : List ℝ) : ℝ :=
  if embedding1.length ≠ embedding2.length then 0.0
  else if magnitude embedding1 = 0 ∨ magnitude embedding2 = 0 then 0.0
  else max 0.0 (min 1.0
    ((dotProduct embedding1 embedding2
        / (magnitude embedding1 * magnitude embedding2) + 1) / 2))

/-- Model of `EmbeddingService.find_most_similar`: skip absent candidates,
score the rest, stable-sort descending by similarity, truncate to `top_k`. -/
noncomputable def find_most_similar (query_embedding : List ℝ)
    (candidate_embeddings : List (Option (List ℝ))) (top_k : ℕ) :
    List (ℕ × ℝ) :=
  let similarities := candidate_embeddings.enum.filterMap (fun p =>
    match p.2 with
    | none => none
    | some candidate => some (p.1, calculate_similarity query_embedding candidate))
  (sortDescBy Prod.snd similarities).take top_k

theorem dotProduct_nil_left (b : List ℝ) : dotProduct [] b = 0 := by
  simp [dotProduct]

theorem dotProduct_cons_cons (x y : ℝ) (xs ys : List ℝ) :
    dotProduct (x :: xs) (y :: ys) = x * y + dotProduct xs ys := by
  simp [dotProduct]

theorem dotProduct_comm (a b : List ℝ) : dotProduct a b = dotProduct b a := by
  induction a generalizing b with
  | nil => cases b <;> simp [dotProduct]
  | cons x xs ih =>
    cases b with
    | nil => simp [dotProduct]
    | cons y ys => simp [dotProduct_cons_cons, ih, mul_comm]

theorem dotProduct_self_nonneg (a : List ℝ) : 0 ≤ dotProduct a a := by
  induction a with
  | nil => simp [dotProduct]
  | cons x xs ih =>
    rw [dotProduct_cons_cons]
    exact add_nonneg (mul_self_nonneg x) ih

theorem dotProduct_self_eq_zero (a : List ℝ) :
    dotProduct a a = 0 ↔ ∀ x ∈ a, x = 0 := by
  induction a with
  | nil => simp [dotProduct]
  | cons x xs ih =>
    rw [dotProduct_cons_cons]
    rw [add_eq_zero_iff_of_nonneg (mul_self_nonneg x) (dotProduct_self_nonneg xs)]
    simp [mul_self_eq_zero, ih]

theorem dotProduct_neg_right (a : List ℝ) :
    dotProduct a (a.map (fun x => -x)) = -(dotProduct a a) := by
  induction a with
  | nil => simp [dotProduct]
  | cons x xs ih =>
    simp only [List.map_cons, dotProduct_cons_cons, ih]
    ring

theorem dotProduct_neg_self (a : List ℝ) :
    dotProduct (a.map (fun x => -x)) (a.map (fun x => -x)) = dotProduct a a := by
  induction a with
  | nil => simp [dotProduct]
  | cons x xs ih =>
    simp only [List.map_cons, dotProduct_cons_cons, ih]
    ring

theorem magnitude_nonneg (a : List ℝ) : 0 ≤ magnitude a :=
  Real.sqrt_nonneg _

theorem magnitude_eq_zero (a : List ℝ) :
    magnitude a = 0 ↔ dotProduct a a = 0 := by
  rw [magnitude, Real.sqrt_eq_zero (dotProduct_self_nonneg a)]

theorem magnitude_map_neg (a : List ℝ) :
    magnitude (a.map (fun x => -x)) = magnitude a := by
  rw [magnitude, magnitude, dotProduct_neg_self]

theorem magnitude_mul_self (a : List ℝ) :
    magnitude a * magnitude a = dotProduct a a :=
  Real.mul_self_sqrt (dotProduct_self_nonneg a)

/-! Concrete evaluations of the similarity function on tiny vectors,
used to instantiate the general theorems. -/

theorem magnitude_unit_fst : magnitude [(1 : ℝ), 0] = 1 := by
  have hd : dotProduct [(1 : ℝ), 0] [(1 : ℝ), 0] = 1 := by
    simp [dotProduct_cons_cons, dotProduct]
  rw [magnitude, hd, Real.sqrt_one]

theorem magnitude_unit_snd : magnitude [(0 : ℝ), 1] = 1 := by
  have hd : dotProduct [(0 : ℝ), 1] [(0 : ℝ), 1] = 1 := by
    simp [dotProduct_cons_cons, dotProduct]
  rw [magnitude, hd, Real.sqrt_one]

theorem magnitude_neg_unit : magnitude [(-1 : ℝ), 0] = 1 := by
  have hd : dotProduct [(-1 : ℝ), 0] [(-1 : ℝ), 0] = 1 := by
    simp [dotProduct_cons_cons, dotProduct]
  rw [magnitude, hd, Real.sqrt_one]

theorem magnitude_zero_pair : magnitude [(0 : ℝ), 0] = 0 := by
  have hd : dotProduct [(0 : ℝ), 0] [(0 : ℝ), 0] = 0 := by
    simp [dotProduct_cons_cons, dotProduct]
  rw [magnitude, hd, Real.sqrt_zero]

theorem calculate_similarity_unit_self :
    calculate_similarity [(1 : ℝ), 0] [(1 : ℝ), 0] = 1 := by
  have hd : dotProduct [(1 : ℝ), 0] [(1 : ℝ), 0] = 1 := by
    simp [dotProduct_cons_cons, dotProduct]
  rw [calculate_similarity]
  simp [hd, magnitude_unit_fst]
  norm_num

theorem calculate_similarity_unit_orth :
    calculate_similarity [(1 : ℝ), 0] [(0 : ℝ), 1] = 1 / 2 := by
  have hd : dotProduct [(1 : ℝ), 0] [(0 : ℝ), 1] = 0 := by
    simp [dotProduct_cons_cons, dotProduct]
  rw [calculate_similarity]
  simp [hd, magnitude_unit_fst, magnitude_unit_snd]
  norm_num

theorem calculate_similarity_unit_opp :
    calculate_similarity [(1 : ℝ), 0] [(-1 : ℝ), 0] = 0 := by
  have hd : dotProduct [(1 : ℝ), 0] [(-1 : ℝ), 0] = -1 := by
    simp [dotProduct_cons_cons, dotProduct]
  rw [calculate_similarity]
  simp [hd, magnitude_unit_fst, magnitude_neg_unit]
  norm_num

theorem calculate_similarity_zero_left :
    calculate_similarity [(0 : ℝ), 0] [(1 : ℝ), 0] = 0 := by
  rw [calculate_similarity]
  simp [magnitude_zero_pair]
  norm_num

/-! ### Data model

The Django rows of `backend/jobs/models.py`, restricted to the fields
the matching core reads.  Users and foreign keys are identified by
their numeric ids; `created_at` timestamps are modelled by naturals
(larger means created later), which is what the default ordering
`['-created_at']` of `PersonalInsight` sorts on.
-/

/-- Model of the `CareerCategory` row. -/
structure CareerCategory where
  id : ℕ
  name : String
  keywords : List String
  is_active : Bool

/-- Model of the `PersonalInsight` row. -/
structure PersonalInsight where
  id : ℕ
  user : ℕ
  category : CareerCategory
  insight_type : String
  question : String
  content : String
  embedding : Option (List ℝ)
  is_active : Bool
  created_at : ℕ

/-- Model of the `SearchedJob` row.  The field `recommendations_analysis`
models `job.recommendations.get('analysis', '')`. -/
structure SearchedJob where
  id : ℕ
  user : ℕ
  job_title : String
  company_name : String
  analysis_result : String
  recommendations_analysis : String

/-- Model of the `JobInsightMatch` row. -/
structure JobInsightMatch where
  searched_job : ℕ
  matched_insight : PersonalInsight
  relevance_score : ℝ
  category_match_bonus : ℝ
  final_score : ℝ
  is_used_in_narrative : Bool

/-! ### CategoryBonusCalculator -/

/-- Lower-case a string at the character level, the model of `str.lower`. -/
def lowerChars (s : String) : List Char := s.toList.map Char.toLower

/-- Model of the Python substring test `kw in text`. -/
def substringOf (kw text : List Char) : Bool := decide (kw <:+: text)

/-- Model of `_calculate_category_match_bonus` (insights_views.py):
lower-cased keyword-in-text check over the concatenation of job title and
analysis text, `0.1` added per matching keyword list entry, total capped
at `0.3`. -/
noncomputable def calculate_category_match_bonus
    (job : SearchedJob) (insight : PersonalInsight) : ℝ :=
  let job_text := lowerChars (job.job_title ++ " " ++ job.analysis_result)
  let category_keywords := insight.category.keywords.map lowerChars
  let bonus := category_keywords.foldl
    (fun b keyword => if substringOf keyword job_text then b + 0.1 else b) 0.0
  min bonus 0.3

/-- Count of keyword list entries matching the job text; the fold of the
source adds `0.1` exactly once per such entry. -/
def matchingKeywordCount (job : SearchedJob) (insight : PersonalInsight) : ℕ :=
  ((insight.category.keywords.map lowerChars).filter
    (fun keyword => substringOf keyword
      (lowerChars (job.job_title ++ " " ++ job.analysis_result)))).length

theorem bonus_foldl_eq (text : List Char) (ks : List (List Char)) (b : ℝ) :
    ks.foldl (fun b keyword => if substringOf keyword text then b + 0.1 else b) b
      = b + 0.1 * (ks.filter (fun keyword => substringOf keyword text)).length := by
  induction ks generalizing b with
  | nil => simp
  | cons k ks ih =>
    by_cases hk : substringOf k text
    · simp only [List.foldl_cons, hk, if_true, List.filter_cons, ih]
      push_cast [List.length_cons]
      ring
    · simp only [List.foldl_cons, hk, if_false, List.filter_cons, ih]
      simp [hk]

theorem calculate_category_match_bonus_eq (job : SearchedJob)
    (insight : PersonalInsight) :
    calculate_category_match_bonus job insight
      = min (0.1 * (matchingKeywordCount job insight : ℝ)) 0.3 := by
  rw [calculate_category_match_bonus, matchingKeywordCount]
  rw [bonus_foldl_eq]
  norm_num

/-! ### MatchEngine: `match_insights_to_job` (insights_views.py)

The database tables are modelled as lists of rows in insertion order.
A Django queryset is modelled by a filter over that list followed by
the model's default ordering (`['-created_at']` for `PersonalInsight`,
realised by the stable sort on the `created_at` field).
-/

/-- Model of the insights queryset of `match_insights_to_job`:
`filter(user=..., is_active=True, embedding__isnull=False)`, optionally
restricted to the requested categories, in the model's default order. -/
def insightsQuery (user : ℕ) (category_ids : List ℕ)
    (db_insights : List PersonalInsight) : List PersonalInsight :=
  let q := db_insights.filter
    (fun i => i.user == user && i.is_active && i.embedding.isSome)
  let q := if category_ids.isEmpty then q
    else q.filter (fun i => category_ids.contains i.category.id)
  sortDescBy (fun i => i.created_at) q

/-- One iteration of the scoring loop of `match_insights_to_job`: the
Match row created for `insight`, if it survives the similarity
threshold (`similarity >= min_similarity` keeps equality). -/
noncomputable def scoreInsight (job : SearchedJob) (job_embedding : List ℝ)
    (min_similarity : ℝ) (insight : PersonalInsight) :
    Option JobInsightMatch :=
  match insight.embedding with
  | none => none
  | some emb =>
    let similarity := calculate_similarity job_embedding emb
    if min_similarity ≤ similarity then
      some { searched_job := job.id
             matched_insight := insight
             relevance_score := similarity
             category_match_bonus := calculate_category_match_bonus job insight
             final_score := similarity + calculate_category_match_bonus job insight
             is_used_in_narrative := false }
    else none

/-- Match rows created by the loop of `match_insights_to_job`, in
database insertion order (the iteration order of `insights`). -/
noncomputable def matchesCreated (job : SearchedJob)
    (insights : List PersonalInsight) (job_embedding : List ℝ)
    (min_similarity : ℝ) : List JobInsightMatch :=
  insights.filterMap (scoreInsight job job_embedding min_similarity)

/-- Model of the post-transaction ranking of `match_insights_to_job`:
stable sort of the created rows by `final_score` descending, truncated
to `top_k` (the serialized response list). -/
noncomputable def topMatchesResponse (job : SearchedJob)
    (insights : List PersonalInsight) (job_embedding : List ℝ)
    (min_similarity : ℝ) (top_k : ℕ) : List JobInsightMatch :=
  (sortDescBy (fun m => m.final_score)
    (matchesCreated job insights job_embedding min_similarity)).take top_k

/-- Delete-then-insert inside `transaction.atomic`: all Match rows of
the job are removed, the newly created rows appended. -/
def replaceJobMatches (db_matches : List JobInsightMatch) (jobId : ℕ)
    (new_matches : List JobInsightMatch) : List JobInsightMatch :=
  db_matches.filter (fun m => !(m.searched_job == jobId)) ++ new_matches

/-- Observable outcome of the `transaction.atomic` block: the commit
case applies the delete-then-insert, the rollback case leaves the
table untouched. -/
noncomputable def matchTransactionOutcome (db_matches : List JobInsightMatch)
    (job : SearchedJob) (insights : List PersonalInsight)
    (job_embedding : List ℝ) (min_similarity : ℝ) (commit : Bool) :
    List JobInsightMatch :=
  if commit then
    replaceJobMatches db_matches job.id
      (matchesCreated job insights job_embedding min_similarity)
  else db_matches

/-- Invariant of the `JobInsightMatch` table: at most one row per
(job, insight) pair (the `unique_together` constraint). -/
def matchPairsUnique (db_matches : List JobInsightMatch) : Prop :=
  (db_matches.map (fun m => (m.searched_job, m.matched_insight.id))).Nodup

theorem scoreInsight_eq_some {job : SearchedJob} {job_embedding : List ℝ}
    {min_similarity : ℝ} {insight : PersonalInsight} {r : JobInsightMatch}
    (h : scoreInsight job job_embedding min_similarity insight = some r) :
    ∃ emb, insight.embedding = some emb ∧
      min_similarity ≤ calculate_similarity job_embedding emb ∧
      r.searched_job = job.id ∧ r.matched_insight = insight ∧
      r.relevance_score = calculate_similarity job_embedding emb ∧
      r.category_match_bonus = calculate_category_match_bonus job insight ∧
      r.final_score = r.relevance_score + r.category_match_bonus ∧
      r.is_used_in_narrative = false := by
  cases hemb : insight.embedding with
  | none =>
    rw [scoreInsight, hemb] at h
    cases h
  | some emb =>
    rw [scoreInsight, hemb] at h
    by_cases hle : min_similarity ≤ calculate_similarity job_embedding emb
    · simp only [hle, if_true] at h
      refine ⟨emb, rfl, hle, ?_⟩
      cases h
      simp
    · simp only [hle, if_false] at h
      exact Option.noConfusion h

theorem scoreInsight_of_eligible (job : SearchedJob) (job_embedding : List ℝ)
    (min_similarity : ℝ) (insight : PersonalInsight) (emb : List ℝ)
    (hemb : insight.embedding = some emb)
    (hle : min_similarity ≤ calculate_similarity job_embedding emb) :
    scoreInsight job job_embedding min_similarity insight =
      some { searched_job := job.id
             matched_insight := insight
             relevance_score := calculate_similarity job_embedding emb
             category_match_bonus := calculate_category_match_bonus job insight
             final_score := calculate_similarity job_embedding emb
               + calculate_category_match_bonus job insight
             is_used_in_narrative := false } := by
  rw [scoreInsight, hemb]
  simp only [hle, if_true]

theorem scoreInsight_none_of_no_embedding (job : SearchedJob)
    (job_embedding : List ℝ) (min_similarity : ℝ)
    (insight : PersonalInsight) (hemb : insight.embedding = none) :
    scoreInsight job job_embedding min_similarity insight = none := by
  rw [scoreInsight, hemb]

theorem scoreInsight_none_of_below (job : SearchedJob)
    (job_embedding : List ℝ) (min_similarity : ℝ)
    (insight : PersonalInsight) (emb : List ℝ)
    (hemb : insight.embedding = some emb)
    (hlt : calculate_similarity job_embedding emb < min_similarity) :
    scoreInsight job job_embedding min_similarity insight = none := by
  rw [scoreInsight, hemb]
  simp only [not_le.2 hlt, if_false]

theorem mem_matchesCreated {job : SearchedJob}
    {insights : List PersonalInsight} {job_embedding : List ℝ}
    {min_similarity : ℝ} {r : JobInsightMatch} :
    r ∈ matchesCreated job insights job_embedding min_similarity ↔
      ∃ i ∈ insights, scoreInsight job job_embedding min_similarity i = some r := by
  rw [matchesCreated, List.mem_filterMap]

theorem matchesCreated_searched_job {job : SearchedJob}
    {insights : List PersonalInsight} {job_embedding : List ℝ}
    {min_similarity : ℝ} {r : JobInsightMatch}
    (h : r ∈ matchesCreated job insights job_embedding min_similarity) :
    r.searched_job = job.id := by
  rcases mem_matchesCreated.1 h with ⟨i, _, hsc⟩
  rcases scoreInsight_eq_some hsc with ⟨emb, _, _, hjob, _⟩
  exact hjob

theorem matchesCreated_ids_sublist (job : SearchedJob)
    (insights : List PersonalInsight) (job_embedding : List ℝ)
    (min_similarity : ℝ) :
    List.Sublist
      ((matchesCreated job insights job_embedding min_similarity).map
        (fun m => m.matched_insight.id))
      (insights.map (fun i => i.id)) := by
  induction insights with
  | nil => simp [matchesCreated]
  | cons i rest ih =>
    rw [matchesCreated, List.filterMap_cons]
    cases hsc : scoreInsight job job_embedding min_similarity i with
    | none =>
      exact List.Sublist.cons _ ih
    | some r =>
      rcases scoreInsight_eq_some hsc with ⟨emb, _, _, _, hmi, _⟩
      simp only [List.map_cons, hmi]
      exact List.Sublist.cons₂ _ ih

theorem matchesCreated_pairs_nodup (job : SearchedJob)
    (insights : List PersonalInsight) (job_embedding : List ℝ)
    (min_similarity : ℝ)
    (hids : (insights.map (fun i => i.id)).Nodup) :
    ((matchesCreated job insights job_embedding min_similarity).map
      (fun m => (m.searched_job, m.matched_insight.id))).Nodup := by
  have hsub := matchesCreated_ids_sublist job insights job_embedding min_similarity
  have hnd : ((matchesCreated job insights job_embedding min_similarity).map
      (fun m => m.matched_insight.id)).Nodup := hids.sublist hsub
  refine List.Nodup.of_map Prod.snd ?_
  rw [List.map_map]
  exact hnd

theorem filter_replaceJobMatches (db_matches : List JobInsightMatch)
    (jobId : ℕ) (new_matches : List JobInsightMatch)
    (hnew : ∀ m ∈ new_matches, m.searched_job = jobId) :
    (replaceJobMatches db_matches jobId new_matches).filter
      (fun m => m.searched_job == jobId) = new_matches := by
  rw [replaceJobMatches, List.filter_append]
  have h1 : (db_matches.filter (fun m => !(m.searched_job == jobId))).filter
      (fun m => m.searched_job == jobId) = [] := by
    rw [List.filter_filter]
    apply List.filter_eq_nil_iff.2
    intro m _
    by_cases hm : m.searched_job = jobId <;> simp [hm]
  have h2 : new_matches.filter (fun m => m.searched_job == jobId) = new_matches :=
    List.filter_eq_self.2 (fun m hm => by simp [hnew m hm])
  rw [h1, h2, List.nil_append]

/-- Shape of the HTTP response of `match_insights_to_job`. -/
inductive MatchResponse where
  | missingDescription : MatchResponse
  | embeddingFailed : MatchResponse
  | noInsights : MatchResponse
  | ok : ℕ → List JobInsightMatch → MatchResponse

/-- HTTP status code attached to each `MatchResponse` shape. -/
def matchStatus : MatchResponse → ℕ
  | .missingDescription => 400
  | .embeddingFailed => 500
  | .noInsights => 200
  | .ok _ _ => 200

/-- Model of the view `match_insights_to_job`: the embedding provider is
external, so its result is a parameter (`none` models a failed call;
the view treats an empty vector like a failed one, Python truthiness). -/
noncomputable def match_insights_to_job (job : SearchedJob) (top_k : ℕ)
    (min_similarity : ℝ) (category_ids : List ℕ)
    (db_insights : List PersonalInsight)
    (job_embedding : Option (List ℝ)) : MatchResponse :=
  let job_description := if job.analysis_result ≠ "" then job.analysis_result
    else job.recommendations_analysis
  if job_description = "" then .missingDescription
  else
    match job_embedding with
    | none => .embeddingFailed
    | some emb =>
      if emb.isEmpty then .embeddingFailed
      else
        let insights := insightsQuery job.user category_ids db_insights
        if insights.isEmpty then .noInsights
        else
          let matches_created := matchesCreated job insights emb min_similarity
          .ok matches_created.length
            ((sortDescBy (fun m => m.final_score) matches_created).take top_k)

/-! ### NarrativeSelector: `generate_narrative` (insights_views.py) -/

/-- Model of the explicit-ids queryset of `generate_narrative`:
`filter(id__in=use_insight_ids, user=..., is_active=True)`; the rows
come back in the model's default order `['-created_at']`, not in the
order of `use_insight_ids`. -/
def insightsByIds (user : ℕ) (use_insight_ids : List ℕ)
    (db_insights : List PersonalInsight) : List PersonalInsight :=
  sortDescBy (fun i => i.created_at)
    (db_insights.filter
      (fun i => use_insight_ids.contains i.id && i.user == user && i.is_active))

/-- Model of the default selection of `generate_narrative`:
`JobInsightMatch.objects.filter(searched_job=job).order_by('-final_score')[:5]`. -/
noncomputable def topMatchesForJob (db_matches : List JobInsightMatch)
    (jobId : ℕ) : List JobInsightMatch :=
  (sortDescBy (fun m => m.final_score)
    (db_matches.filter (fun m => m.searched_job == jobId))).take 5

/-- Insight selection of `generate_narrative`: explicit ids if the
caller passed a non-empty list, otherwise the top matched insights. -/
noncomputable def selectInsights (job : SearchedJob)
    (use_insight_ids : List ℕ) (db_insights : List PersonalInsight)
    (db_matches : List JobInsightMatch) : List PersonalInsight :=
  if use_insight_ids.isEmpty then
    (topMatchesForJob db_matches job.id).map (fun m => m.matched_insight)
  else insightsByIds job.user use_insight_ids db_insights

/-- Weight assignment of the usage-recording loop
(`for i, insight in enumerate(insights)` with
`usage_weight=max(0.1, 1.0 - (i * 0.2))`), starting at index `i`. -/
noncomputable def usageWeightsFrom (i : ℕ) :
    List PersonalInsight → List (PersonalInsight × ℝ)
  | [] => []
  | ins :: rest =>
      (ins, max 0.1 (1.0 - (i : ℝ) * 0.2)) :: usageWeightsFrom (i + 1) rest

/-- Weighted insight list recorded as `NarrativeInsightUsage` rows. -/
noncomputable def usageWeights (insights : List PersonalInsight) :
    List (PersonalInsight × ℝ) :=
  usageWeightsFrom 0 insights

/-- Shape of the HTTP response of `generate_narrative`. -/
inductive NarrativeResponse where
  | badRequestNoInsights : NarrativeResponse
  | generationFailed : NarrativeResponse
  | created : List (PersonalInsight × ℝ) → NarrativeResponse

/-- HTTP status code attached to each `NarrativeResponse` shape. -/
def narrativeStatus : NarrativeResponse → ℕ
  | .badRequestNoInsights => 400
  | .generationFailed => 500
  | .created _ => 201

/-- Model of the view `generate_narrative`: the text-generation provider
is external, so its result is a parameter (`none` or an empty string
models a failed generation, Python truthiness). -/
noncomputable def generate_narrative (job : SearchedJob)
    (use_insight_ids : List ℕ) (db_insights : List PersonalInsight)
    (db_matches : List JobInsightMatch)
    (generated_content : Option String) : NarrativeResponse :=
  let insights := selectInsights job use_insight_ids db_insights db_matches
  if insights.isEmpty then .badRequestNoInsights
  else
    match generated_content with
    | none => .generationFailed
    | some content =>
      if content = "" then .generationFailed
      else .created (usageWeights insights)

/-! ### Concrete fixtures

Small rows used to instantiate the general theorems: one category with
a matching keyword, one with none, one with a duplicated keyword, a
job whose text contains the keyword, and insights whose embeddings
give similarity `1`, `1/2` and `0` against the job embedding `[1, 0]`.
-/

/-- Fixture category whose single keyword occurs in the fixture job. -/
def ctoCategory : CareerCategory :=
  { id := 1, name := "CTO", keywords := ["ab"], is_active := true }

/-- Fixture category without keywords. -/
def plainCategory : CareerCategory :=
  { id := 3, name := "IT", keywords := [], is_active := true }

/-- Fixture category whose keyword list repeats one keyword. -/
def dupCategory : CareerCategory :=
  { id := 2, name := "Lead", keywords := ["ab", "ab"], is_active := true }

/-- Fixture job; its lower-cased title-plus-analysis text is `ab x`. -/
def exampleJob : SearchedJob :=
  { id := 1, user := 1, job_title := "ab", company_name := "co",
    analysis_result := "x", recommendations_analysis := "" }

/-- Fixture insight with embedding `[1, 0]` (similarity 1 against `[1, 0]`). -/
noncomputable def insightA : PersonalInsight :=
  { id := 1, user := 1, category := ctoCategory,
    insight_type := "career_motivation", question := "qa", content := "ca",
    embedding := some [1, 0], is_active := true, created_at := 1 }

/-- Fixture insight with embedding `[0, 1]` (similarity 1/2 against `[1, 0]`). -/
noncomputable def insightB : PersonalInsight :=
  { id := 2, user := 1, category := plainCategory,
    insight_type := "work_values", question := "qb", content := "cb",
    embedding := some [0, 1], is_active := true, created_at := 2 }

/-- Fixture insight with embedding `[-1, 0]` (similarity 0 against `[1, 0]`). -/
noncomputable def insightC : PersonalInsight :=
  { id := 3, user := 1, category := plainCategory,
    insight_type := "unique_value", question := "qc", content := "cc",
    embedding := some [-1, 0], is_active := true, created_at := 3 }

/-- Fixture insight with id 7 and no embedding, created before `insightThree`. -/
def insightSeven : PersonalInsight :=
  { id := 7, user := 1, category := plainCategory,
    insight_type := "leadership_style", question := "q7", content := "c7",
    embedding := none, is_active := true, created_at := 1 }

/-- Fixture insight with id 3 and no embedding, created after `insightSeven`. -/
def insightThree : PersonalInsight :=
  { id := 3, user := 1, category := plainCategory,
    insight_type := "team_building", question := "q3", content := "c3",
    embedding := none, is_active := true, created_at := 2 }

/-- Fixture insight owned by the duplicated-keyword category. -/
def dupInsight : PersonalInsight :=
  { id := 9, user := 1, category := dupCategory,
    insight_type := "industry_knowledge", question := "q9", content := "c9",
    embedding := none, is_active := true, created_at := 9 }

/-- Fixture table of three prior Match rows of the fixture job. -/
noncomputable def priorMatchRows : List JobInsightMatch :=
  [ { searched_job := 1, matched_insight := insightA, relevance_score := 0.5,
      category_match_bonus := 0, final_score := 0.5, is_used_in_narrative := false },
    { searched_job := 1, matched_insight := insightB, relevance_score := 0.4,
      category_match_bonus := 0, final_score := 0.4, is_used_in_narrative := false },
    { searched_job := 1, matched_insight := insightC, relevance_score := 0.35,
      category_match_bonus := 0, final_score := 0.35, is_used_in_narrative := false } ]

theorem bonus_exampleJob_insightA :
    calculate_category_match_bonus exampleJob insightA = 0.1 := by
  rw [calculate_category_match_bonus_eq]
  have h : matchingKeywordCount exampleJob insightA = 1 := by decide
  rw [h]
  norm_num

theorem bonus_dupJob_dupInsight :
    calculate_category_match_bonus exampleJob dupInsight = 0.2 := by
  rw [calculate_category_match_bonus_eq]
  have h : matchingKeywordCount exampleJob dupInsight = 2 := by decide
  rw [h]
  norm_num

/-! ### Claim theorems -/

/-- C1: an insight enters the match set computed by `match_insights_to_job`
only if it has an embedding (embedding-less insights are silently excluded)
and its normalized relevance is at least `min_similarity` (equality is
kept), and every surviving match's `final_score` is exactly
`relevance_score + category_match_bonus`, with no cap applied; conversely,
every insight with an embedding whose similarity clears the threshold
yields a match. -/
theorem C1_match_filter_and_score (job : SearchedJob)
    (insights : List PersonalInsight) (job_embedding : List ℝ)
    (min_similarity : ℝ) :
    (List.Forall (fun m =>
        ∃ emb, m.matched_insight.embedding = some emb ∧
          m.relevance_score = calculate_similarity job_embedding emb ∧
          min_similarity ≤ m.relevance_score ∧
          m.category_match_bonus = calculate_category_match_bonus job m.matched_insight ∧
          m.final_score = m.relevance_score + m.category_match_bonus)
      (matchesCreated job insights job_embedding min_similarity)) ∧
    (List.Forall (fun i => ∀ emb, i.embedding = some emb →
        min_similarity ≤ calculate_similarity job_embedding emb →
        ∃ m, m ∈ matchesCreated job insights job_embedding min_similarity ∧
          m.matched_insight = i)
      insights) := by
  constructor
  · rw [List.forall_iff_forall_mem]
    intro m hm
    rcases mem_matchesCreated.1 hm with ⟨i, hi, hsc⟩
    rcases scoreInsight_eq_some hsc with
      ⟨emb, hemb, hle, hjob, hmi, hrel, hbon, hfin, hflag⟩
    refine ⟨emb, ?_, hrel, ?_, ?_, hfin⟩
    · rw [hmi]; exact hemb
    · rw [hrel]; exact hle
    · rw [hmi]; exact hbon
  · rw [List.forall_iff_forall_mem]
    intro i hi emb hemb hle
    refine ⟨_, mem_matchesCreated.2
      ⟨i, hi, scoreInsight_of_eligible job job_embedding min_similarity i emb hemb hle⟩, rfl⟩

/-- C1 witness: for the fixture job and the single fixture insight with
embedding `[1, 0]` against job embedding `[1, 0]` and threshold `0.3`,
the insight is matched, its relevance is `1`, its bonus `0.1`, and its
final score `1.1` exceeds `1` (uncapped). -/
theorem C1_match_filter_and_score_witness :
    insightA.embedding = some [1, 0] ∧
    (0.3 : ℝ) ≤ calculate_similarity [1, 0] [1, 0] ∧
    ∃ m, m ∈ matchesCreated exampleJob [insightA] [1, 0] 0.3 ∧
      m.matched_insight = insightA ∧
      m.final_score = m.relevance_score + m.category_match_bonus ∧
      (1 : ℝ) < m.final_score := by
  have hsim : (0.3 : ℝ) ≤ calculate_similarity [1, 0] [1, 0] := by
    rw [calculate_similarity_unit_self]; norm_num
  have h := C1_match_filter_and_score exampleJob [insightA] [1, 0] 0.3
  have h2 := (List.forall_iff_forall_mem.1 h.2) insightA (by simp)
  rcases h2 [1, 0] rfl hsim with ⟨m, hm, hmi⟩
  have h1 := (List.forall_iff_forall_mem.1 h.1) m hm
  rcases h1 with ⟨emb, hemb, hrel, hle, hbon, hfin⟩
  have h0 : insightA.embedding = some [(1 : ℝ), 0] := rfl
  refine ⟨h0, hsim, m, hm, hmi, hfin, ?_⟩
  rw [hmi] at hemb
  have hembA : emb = [1, 0] := (Option.some.inj (h0.symm.trans hemb)).symm
  rw [hfin, hrel, hembA, calculate_similarity_unit_self, hbon, hmi,
    bonus_exampleJob_insightA]
  norm_num

/-- C2: the response list of `match_insights_to_job` has at most `top_k`
entries and is sorted descending by `final_score`, with ties kept in the
insertion (database) order of the created rows (stable sort); and
`find_most_similar` has the same shape: absent-vector candidates are
skipped and every returned entry carries the similarity of a present
candidate, the result is sorted descending by score and truncated to `k`. -/
theorem C2_ranking (job : SearchedJob) (insights : List PersonalInsight)
    (job_embedding : List ℝ) (min_similarity : ℝ) (top_k : ℕ) (s : ℝ)
    (query_embedding : List ℝ)
    (candidate_embeddings : List (Option (List ℝ))) (k : ℕ) :
    (topMatchesResponse job insights job_embedding min_similarity top_k).length ≤ top_k ∧
    (topMatchesResponse job insights job_embedding min_similarity top_k).Pairwise
      (fun m1 m2 => m2.final_score ≤ m1.final_score) ∧
    ((sortDescBy (fun m => m.final_score)
        (matchesCreated job insights job_embedding min_similarity)).filter
          (fun m => decide (m.final_score = s)) =
      (matchesCreated job insights job_embedding min_similarity).filter
        (fun m => decide (m.final_score = s))) ∧
    (find_most_similar query_embedding candidate_embeddings k).length ≤ k ∧
    (find_most_similar query_embedding candidate_embeddings k).Pairwise
      (fun p1 p2 => p2.2 ≤ p1.2) ∧
    List.Forall (fun p => ∃ c, candidate_embeddings[p.1]? = some (some c) ∧
        p.2 = calculate_similarity query_embedding c)
      (find_most_similar query_embedding candidate_embeddings k) := by
  refine ⟨?_, ?_, ?_, ?_, ?_, ?_⟩
  · rw [topMatchesResponse]
    exact List.length_take_le _ _
  · rw [topMatchesResponse]
    have hpw : (sortDescBy (fun m => m.final_score)
        (matchesCreated job insights job_embedding min_similarity)).Pairwise
          (fun m1 m2 => m2.final_score ≤ m1.final_score) :=
      pairwise_sortDescBy _ _
    exact hpw.sublist (List.take_sublist _ _)
  · exact filter_sortDescBy (fun m : JobInsightMatch => m.final_score) s _
  · simp only [find_most_similar]
    exact List.length_take_le _ _
  · simp only [find_most_similar]
    have hpw : (sortDescBy (Prod.snd : ℕ × ℝ → ℝ)
        (candidate_embeddings.enum.filterMap (fun q =>
          match q.2 with
          | none => none
          | some candidate =>
            some (q.1, calculate_similarity query_embedding candidate)))).Pairwise
          (fun p1 p2 => p2.2 ≤ p1.2) :=
      pairwise_sortDescBy _ _
    exact hpw.sublist (List.take_sublist _ _)
  · rw [List.forall_iff_forall_mem]
    intro p hp
    simp only [find_most_similar] at hp
    have hp1 : p ∈ sortDescBy Prod.snd
        (candidate_embeddings.enum.filterMap (fun q =>
          match q.2 with
          | none => none
          | some candidate =>
            some (q.1, calculate_similarity query_embedding candidate))) :=
      (List.take_sublist _ _).subset hp
    have hp2 := (sortDescBy_perm Prod.snd _).mem_iff.1 hp1
    rcases List.mem_filterMap.1 hp2 with ⟨q, hq, hf⟩
    obtain ⟨i, oc⟩ := q
    cases hoc : oc with
    | none =>
      rw [hoc] at hf
      exact Option.noConfusion hf
    | some c =>
      rw [hoc] at hf
      have hpc : p = (i, calculate_similarity query_embedding c) :=
        (Option.some.inj hf).symm
      rw [hoc] at hq
      have hget := List.mk_mem_enum_iff_getElem?.1 hq
      refine ⟨c, ?_, ?_⟩
      · rw [hpc]
        exact hget
      · rw [hpc]

/-- C3: the transaction of `match_insights_to_job` preserves the
one-Match-per-(job, insight) invariant, the commit case replaces the
job's entire match set by exactly the newly created rows (so a job that
had three rows and one surviving insight ends with exactly one row),
and the rollback case leaves the table exactly as it was. -/
theorem C3_atomic_replace (db_matches : List JobInsightMatch)
    (job : SearchedJob) (insights : List PersonalInsight)
    (job_embedding : List ℝ) (min_similarity : ℝ) (commit : Bool)
    (hdb : matchPairsUnique db_matches)
    (hids : (insights.map (fun i => i.id)).Nodup) :
    matchPairsUnique (matchTransactionOutcome db_matches job insights
      job_embedding min_similarity commit) ∧
    ((matchTransactionOutcome db_matches job insights job_embedding
        min_similarity true).filter (fun m => m.searched_job == job.id) =
      matchesCreated job insights job_embedding min_similarity) ∧
    matchTransactionOutcome db_matches job insights job_embedding
      min_similarity false = db_matches := by
  have hnew : ∀ m ∈ matchesCreated job insights job_embedding min_similarity,
      m.searched_job = job.id := fun m hm => matchesCreated_searched_job hm
  have hcommit : matchPairsUnique (replaceJobMatches db_matches job.id
      (matchesCreated job insights job_embedding min_similarity)) := by
    rw [matchPairsUnique, replaceJobMatches, List.map_append, List.nodup_append]
    refine ⟨?_, matchesCreated_pairs_nodup job insights job_embedding
      min_similarity hids, ?_⟩
    · exact hdb.sublist ((List.filter_sublist _).map _)
    · intro x hx1 hx2
      rcases List.mem_map.1 hx1 with ⟨m1, hm1, hx1e⟩
      rcases List.mem_map.1 hx2 with ⟨m2, hm2, hx2e⟩
      have h1 : m1.searched_job ≠ job.id := by
        have := (List.mem_filter.1 hm1).2
        simpa using this
      have h2 : m2.searched_job = job.id := hnew m2 hm2
      apply h1
      have : x.1 = m1.searched_job := by rw [← hx1e]
      have h2' : x.1 = m2.searched_job := by rw [← hx2e]
      rw [← this, h2', h2]
  refine ⟨?_, ?_, ?_⟩
  · cases commit with
    | false =>
      rw [matchTransactionOutcome, if_neg (by simp)]
      exact hdb
    | true =>
      rw [matchTransactionOutcome, if_pos rfl]
      exact hcommit
  · rw [matchTransactionOutcome, if_pos rfl]
    exact filter_replaceJobMatches db_matches job.id _ hnew
  · rw [matchTransactionOutcome, if_neg (by simp)]

/-- C3 witness: the fixture job starts with three Match rows with
pairwise-distinct (job, insight) pairs; recomputation against insights
with similarities `1`, `1/2`, `0` and threshold `0.9` creates exactly
one row, and after the committed transaction the job has exactly one
Match row. -/
theorem C3_atomic_replace_witness :
    matchPairsUnique priorMatchRows ∧
    (([insightA, insightB, insightC].map (fun i => i.id)).Nodup) ∧
    priorMatchRows.length = 3 ∧
    (matchesCreated exampleJob [insightA, insightB, insightC] [1, 0] 0.9).length = 1 ∧
    ((matchTransactionOutcome priorMatchRows exampleJob
        [insightA, insightB, insightC] [1, 0] 0.9 true).filter
      (fun m => m.searched_job == exampleJob.id)).length = 1 := by
  have hdb : matchPairsUnique priorMatchRows := by
    rw [matchPairsUnique]
    decide
  have hids : (([insightA, insightB, insightC]).map (fun i => i.id)).Nodup := by
    decide
  have hA := scoreInsight_of_eligible exampleJob [1, 0] 0.9 insightA [1, 0] rfl
    (by rw [calculate_similarity_unit_self]; norm_num)
  have hB := scoreInsight_none_of_below exampleJob [1, 0] 0.9 insightB [0, 1] rfl
    (by rw [calculate_similarity_unit_orth]; norm_num)
  have hC := scoreInsight_none_of_below exampleJob [1, 0] 0.9 insightC [-1, 0] rfl
    (by rw [calculate_similarity_unit_opp]; norm_num)
  have hmc : (matchesCreated exampleJob [insightA, insightB, insightC] [1, 0] 0.9).length = 1 := by
    rw [matchesCreated, List.filterMap_cons, hA, List.filterMap_cons, hB,
      List.filterMap_cons, hC]
    rfl
  have h := C3_atomic_replace priorMatchRows exampleJob
    [insightA, insightB, insightC] [1, 0] 0.9 true hdb hids
  refine ⟨hdb, hids, rfl, hmc, ?_⟩
  rw [h.2.1]
  exact hmc

/-- C4: `calculate_similarity` equals the raw cosine remapped by
(cos + 1) / 2 and clamped into [0, 1]; a zero-magnitude input yields
exactly 0; the result always lies in [0, 1]; self-similarity of a
non-zero vector is 1; similarity against the negated vector is 0; and
the function is symmetric. -/
theorem C4_cosine_similarity (a b v : List ℝ) :
    (magnitude a = 0 ∨ magnitude b = 0 → calculate_similarity a b = 0) ∧
    (a.length = b.length → ¬(magnitude a = 0 ∨ magnitude b = 0) →
      calculate_similarity a b =
        max 0 (min 1 ((dotProduct a b / (magnitude a * magnitude b) + 1) / 2))) ∧
    (0 ≤ calculate_similarity a b ∧ calculate_similarity a b ≤ 1) ∧
    ((∃ x ∈ v, x ≠ 0) → calculate_similarity v v = 1) ∧
    calculate_similarity v (v.map (fun x => -x)) = 0 ∧
    calculate_similarity a b = calculate_similarity b a := by
  have hzero : ∀ x y : List ℝ, (magnitude x = 0 ∨ magnitude y = 0) →
      calculate_similarity x y = 0 := by
    intro x y hm
    rw [calculate_similarity]
    by_cases hlen : x.length ≠ y.length
    · rw [if_pos hlen]
      norm_num
    · rw [if_neg hlen, if_pos hm]
      norm_num
  have hcs : ∀ x y : List ℝ, x.length = y.length →
      ¬(magnitude x = 0 ∨ magnitude y = 0) →
      calculate_similarity x y =
        max 0.0 (min 1.0 ((dotProduct x y / (magnitude x * magnitude y) + 1) / 2)) := by
    intro x y hlen hm
    rw [calculate_similarity, if_neg (by simp [hlen]), if_neg hm]
  have hmislen : ∀ x y : List ℝ, x.length ≠ y.length →
      calculate_similarity x y = 0 := by
    intro x y hlen
    rw [calculate_similarity, if_pos hlen]
    norm_num
  have hremap : a.length = b.length → ¬(magnitude a = 0 ∨ magnitude b = 0) →
      calculate_similarity a b =
        max 0 (min 1 ((dotProduct a b / (magnitude a * magnitude b) + 1) / 2)) := by
    intro hlen hm
    rw [hcs a b hlen hm]
    norm_num
  have hbounds : ∀ x y : List ℝ,
      0 ≤ calculate_similarity x y ∧ calculate_similarity x y ≤ 1 := by
    intro x y
    by_cases hlen : x.length ≠ y.length
    · rw [hmislen x y hlen]
      norm_num
    · by_cases hm : magnitude x = 0 ∨ magnitude y = 0
      · rw [hzero x y hm]
        norm_num
      · rw [hcs x y (not_not.1 hlen) hm]
        constructor
        · exact le_trans (by norm_num) (le_max_left 0.0 _)
        · exact max_le (by norm_num) (le_trans (min_le_left _ _) (by norm_num))
  have hself : (∃ x ∈ v, x ≠ 0) → calculate_similarity v v = 1 := by
    intro hv
    have hdot : dotProduct v v ≠ 0 := by
      rw [Ne, dotProduct_self_eq_zero]
      rcases hv with ⟨x, hx, hxne⟩
      intro hall
      exact hxne (hall x hx)
    have hmag : magnitude v ≠ 0 := by
      rw [Ne, magnitude_eq_zero]
      exact hdot
    rw [hcs v v rfl (by simp [hmag]), magnitude_mul_self, div_self hdot]
    have h2 : ((1 : ℝ) + 1) / 2 = 1 := by norm_num
    rw [h2, min_eq_right (by norm_num : (1 : ℝ) ≤ 1.0)]
    exact max_eq_right (by norm_num)
  have hopp : calculate_similarity v (v.map (fun x => -x)) = 0 := by
    by_cases hm : magnitude v = 0
    · exact hzero v _ (Or.inl hm)
    · have hm2 : magnitude (v.map (fun x => -x)) = magnitude v := magnitude_map_neg v
      have hdot : dotProduct v v ≠ 0 := by
        intro h
        exact hm ((magnitude_eq_zero v).2 h)
      rw [hcs v (v.map (fun x => -x)) (by simp) (by simp [hm2, hm])]
      rw [dotProduct_neg_right, hm2, magnitude_mul_self, neg_div, div_self hdot]
      have h2 : (-(1 : ℝ) + 1) / 2 = 0 := by norm_num
      rw [h2, min_eq_right (by norm_num : (0 : ℝ) ≤ 1.0)]
      exact max_eq_right (by norm_num)
  have hsym : calculate_similarity a b = calculate_similarity b a := by
    by_cases hlen : a.length = b.length
    · by_cases hm : magnitude a = 0 ∨ magnitude b = 0
      · rw [hzero a b hm, hzero b a (Or.symm hm)]
      · have hm' : ¬(magnitude b = 0 ∨ magnitude a = 0) := fun hh => hm (Or.symm hh)
        rw [hcs a b hlen hm, hcs b a hlen.symm hm', dotProduct_comm, mul_comm]
    · rw [hmislen a b hlen, hmislen b a (fun hh => hlen hh.symm)]
  exact ⟨hzero a b, hremap, hbounds a b, hself, hopp, hsym⟩

/-- C4 witness: at the concrete vectors `[0, 0]`, `[1, 0]`: the
zero-magnitude case gives 0, the non-zero self-similarity gives 1, the
negated vector gives 0, and the function is symmetric there. -/
theorem C4_cosine_similarity_witness :
    (magnitude [(0 : ℝ), 0] = 0 ∨ magnitude [(1 : ℝ), 0] = 0) ∧
    calculate_similarity [(0 : ℝ), 0] [(1 : ℝ), 0] = 0 ∧
    (∃ x ∈ [(1 : ℝ), 0], x ≠ 0) ∧
    calculate_similarity [(1 : ℝ), 0] [(1 : ℝ), 0] = 1 ∧
    calculate_similarity [(1 : ℝ), 0] ([(1 : ℝ), 0].map (fun x => -x)) = 0 ∧
    calculate_similarity [(0 : ℝ), 0] [(1 : ℝ), 0] =
      calculate_similarity [(1 : ℝ), 0] [(0 : ℝ), 0] := by
  have h := C4_cosine_similarity [(0 : ℝ), 0] [(1 : ℝ), 0] [(1 : ℝ), 0]
  have hm : magnitude [(0 : ℝ), 0] = 0 ∨ magnitude [(1 : ℝ), 0] = 0 :=
    Or.inl magnitude_zero_pair
  have hx : ∃ x ∈ [(1 : ℝ), 0], x ≠ 0 := ⟨1, by simp, by norm_num⟩
  exact ⟨hm, h.1 hm, hx, h.2.2.2.1 hx, h.2.2.2.2.1, h.2.2.2.2.2⟩

/-- C5 counterexample: with keyword list `["ab", "ab"]` (a single distinct
keyword) and a job text containing `ab`, the code's bonus is `0.2`, not
`0.1 = 0.1 × (number of distinct matching keywords)`: duplicate keyword
list entries each add `0.1`. -/
theorem C5_counterexample :
    calculate_category_match_bonus exampleJob dupInsight = 0.2 ∧
    (0.1 : ℝ) * (((dupInsight.category.keywords.map lowerChars).dedup).filter
      (fun kw => substringOf kw
        (lowerChars (exampleJob.job_title ++ " " ++ exampleJob.analysis_result)))).length
      = 0.1 ∧
    (0.2 : ℝ) ≠ 0.1 := by
  refine ⟨bonus_dupJob_dupInsight, ?_, by norm_num⟩
  have h : (((dupInsight.category.keywords.map lowerChars).dedup).filter
      (fun kw => substringOf kw
        (lowerChars (exampleJob.job_title ++ " " ++ exampleJob.analysis_result)))).length
      = 1 := by decide
  rw [h]
  norm_num

/-- C5 (amended): the bonus equals `min (0.1 × k) 0.3` where `k` counts
keyword list entries whose lower-cased form occurs in the lower-cased
job text (each entry contributes at most once regardless of repeated
occurrences in the text); it lies in [0, 0.3] and is monotone
non-decreasing in `k`; when the lower-cased keyword list has no
duplicates, `k` is the number of distinct matching keywords. -/
theorem C5_bonus (job job2 : SearchedJob)
    (insight insight2 : PersonalInsight)
    (hmono : matchingKeywordCount job insight ≤ matchingKeywordCount job2 insight2) :
    calculate_category_match_bonus job insight
      = min (0.1 * (matchingKeywordCount job insight : ℝ)) 0.3 ∧
    0 ≤ calculate_category_match_bonus job insight ∧
    calculate_category_match_bonus job insight ≤ 0.3 ∧
    calculate_category_match_bonus job insight ≤
      calculate_category_match_bonus job2 insight2 ∧
    ((insight.category.keywords.map lowerChars).Nodup →
      matchingKeywordCount job insight =
        ((insight.category.keywords.map lowerChars).dedup.filter
          (fun kw => substringOf kw
            (lowerChars (job.job_title ++ " " ++ job.analysis_result)))).length) := by
  refine ⟨calculate_category_match_bonus_eq job insight, ?_, ?_, ?_, ?_⟩
  · rw [calculate_category_match_bonus_eq]
    exact le_min (by positivity) (by norm_num)
  · rw [calculate_category_match_bonus_eq]
    exact min_le_right _ _
  · rw [calculate_category_match_bonus_eq, calculate_category_match_bonus_eq]
    refine min_le_min ?_ le_rfl
    have hc : ((matchingKeywordCount job insight : ℝ))
        ≤ (matchingKeywordCount job2 insight2 : ℝ) := by exact_mod_cast hmono
    exact mul_le_mul_of_nonneg_left hc (by norm_num)
  · intro hnd
    rw [matchingKeywordCount, List.dedup_eq_self.2 hnd]

/-- C5 witness: the fixture insight with one matching keyword has a
smaller matching count than the duplicated-keyword fixture, its bonus
evaluates through the `min (0.1 k) 0.3` formula, and the bonus is
monotone between the two fixtures. -/
theorem C5_bonus_witness :
    matchingKeywordCount exampleJob insightA ≤
      matchingKeywordCount exampleJob dupInsight ∧
    calculate_category_match_bonus exampleJob insightA
      = min (0.1 * (matchingKeywordCount exampleJob insightA : ℝ)) 0.3 ∧
    calculate_category_match_bonus exampleJob insightA ≤
      calculate_category_match_bonus exampleJob dupInsight := by
  have hmono : matchingKeywordCount exampleJob insightA ≤
      matchingKeywordCount exampleJob dupInsight := by decide
  have h := C5_bonus exampleJob exampleJob insightA dupInsight hmono
  exact ⟨hmono, h.1, h.2.2.2.1⟩

/-- C6 counterexample: calling `calculate_similarity` with vectors of
mismatched lengths does not fail fast — the `ValueError` raised by
`np.dot` is swallowed by the blanket exception handler and the call
returns the ordinary similarity score `0.0`, the same value a
well-formed pair of opposite vectors receives. -/
theorem C6_counterexample :
    calculate_similarity [(1 : ℝ)] [(1 : ℝ), 0] = 0 ∧
    calculate_similarity [(1 : ℝ), 0] [(-1 : ℝ), 0] = 0 := by
  constructor
  · rw [calculate_similarity, if_pos (by simp)]
    norm_num
  · exact calculate_similarity_unit_opp

/-- C6 (amended): mismatched-length vectors are not an assertion-level
failure: the blanket `except` handler of `calculate_similarity` silently
coerces every such call to the similarity score `0.0`. -/
theorem C6_mismatch_coerced (a b : List ℝ) (h : a.length ≠ b.length) :
    calculate_similarity a b = 0 := by
  rw [calculate_similarity, if_pos h]
  norm_num

/-- C6 witness: the one- and two-dimensional fixture vectors have
mismatched lengths and their similarity is the coerced score `0`. -/
theorem C6_mismatch_coerced_witness :
    [(1 : ℝ)].length ≠ [(1 : ℝ), 0].length ∧
    calculate_similarity [(1 : ℝ)] [(1 : ℝ), 0] = 0 :=
  ⟨by simp, C6_mismatch_coerced [(1 : ℝ)] [(1 : ℝ), 0] (by simp)⟩

theorem usageWeightsFrom_map_fst (i : ℕ) (l : List PersonalInsight) :
    (usageWeightsFrom i l).map Prod.fst = l := by
  induction l generalizing i with
  | nil => rfl
  | cons x xs ih => simp [usageWeightsFrom, ih]

theorem usageWeightsFrom_map_snd (i : ℕ) (l : List PersonalInsight) :
    (usageWeightsFrom i l).map Prod.snd =
      (List.range l.length).map
        (fun j => max 0.1 (1 - (((i + j : ℕ)) : ℝ) * 0.2)) := by
  induction l generalizing i with
  | nil => rfl
  | cons x xs ih =>
    rw [usageWeightsFrom, List.map_cons, List.length_cons,
      List.range_succ_eq_map, List.map_cons, List.map_map, ih (i + 1)]
    refine congrArg₂ List.cons ?_ ?_
    · norm_num
    · refine List.map_congr_left ?_
      intro j hj
      have hn : i + 1 + j = i + Nat.succ j := by omega
      simp only [Function.comp_apply, hn]

/-- C7: with no explicit ids, `generate_narrative` selects the top five
Match rows of the job by `final_score` descending, and assigns the
rank-based weights `max(0.1, 1.0 - i * 0.2)` for zero-based rank `i`,
depending only on the rank, never on the stored scores; any five
selected insights receive `[1.0, 0.8, 0.6, 0.4, 0.2]` in order. -/
theorem C7_default_selection (job : SearchedJob)
    (db_insights : List PersonalInsight) (db_matches : List JobInsightMatch)
    (l : List PersonalInsight) (a b c d e : PersonalInsight) :
    selectInsights job [] db_insights db_matches =
      (topMatchesForJob db_matches job.id).map (fun m => m.matched_insight) ∧
    (topMatchesForJob db_matches job.id).length ≤ 5 ∧
    (topMatchesForJob db_matches job.id).Pairwise
      (fun m1 m2 => m2.final_score ≤ m1.final_score) ∧
    (usageWeights l).map Prod.fst = l ∧
    (usageWeights l).map Prod.snd =
      (List.range l.length).map (fun i : ℕ => max 0.1 (1 - (i : ℝ) * 0.2)) ∧
    usageWeights [a, b, c, d, e] =
      [(a, 1), (b, 0.8), (c, 0.6), (d, 0.4), (e, 0.2)] := by
  refine ⟨?_, ?_, ?_, ?_, ?_, ?_⟩
  · simp [selectInsights]
  · rw [topMatchesForJob]
    exact List.length_take_le _ _
  · rw [topMatchesForJob]
    have hpw : (sortDescBy (fun m => m.final_score)
        (db_matches.filter (fun m => m.searched_job == job.id))).Pairwise
          (fun m1 m2 => m2.final_score ≤ m1.final_score) :=
      pairwise_sortDescBy _ _
    exact hpw.sublist (List.take_sublist _ _)
  · exact usageWeightsFrom_map_fst 0 l
  · rw [usageWeights, usageWeightsFrom_map_snd]
    refine List.map_congr_left ?_
    intro j hj
    norm_num
  · rw [usageWeights, usageWeightsFrom, usageWeightsFrom, usageWeightsFrom,
      usageWeightsFrom, usageWeightsFrom, usageWeightsFrom]
    norm_num [max_def]

/-- C8 counterexample: with explicit ids `[7, 3]`, both insights owned by
the user and active, and insight 3 created after insight 7, the selection
returns them in the table's default order `[3, 7]` (created_at
descending), not in the caller-given order `[7, 3]`. -/
theorem C8_counterexample :
    (insightsByIds 1 [7, 3] [insightSeven, insightThree]).map (fun i => i.id)
      = [3, 7] ∧
    ¬ ((insightsByIds 1 [7, 3] [insightSeven, insightThree]).map (fun i => i.id)
      = [7, 3]) := by
  have h : (insightsByIds 1 [7, 3] [insightSeven, insightThree]).map
      (fun i => i.id) = [3, 7] := rfl
  refine ⟨h, ?_⟩
  rw [h]
  decide

/-- C8 (amended): explicit ids that do not resolve to an active insight
of the same user are ignored without error (permissive selection), every
resolving insight is included, and the resolved insights come back in
the insight table's default order (created_at descending), not in the
caller-given order; the scenario ids = [7, 99] with 99 absent yields
exactly insight 7 with weight 1.0. -/
theorem C8_explicit_selection (user : ℕ) (ids : List ℕ)
    (db_insights : List PersonalInsight) :
    (List.Forall (fun i => i.user = user ∧ i.is_active = true ∧ i.id ∈ ids)
      (insightsByIds user ids db_insights)) ∧
    (List.Forall (fun i => i.id ∈ ids → i.user = user → i.is_active = true →
        i ∈ insightsByIds user ids db_insights) db_insights) ∧
    (insightsByIds user ids db_insights).Pairwise
      (fun i1 i2 => i2.created_at ≤ i1.created_at) ∧
    insightsByIds 1 [7, 99] [insightSeven, insightThree] = [insightSeven] ∧
    usageWeights [insightSeven] = [(insightSeven, 1)] := by
  refine ⟨?_, ?_, ?_, rfl, ?_⟩
  · rw [List.forall_iff_forall_mem]
    intro i hi
    rw [insightsByIds] at hi
    have hi2 := (sortDescBy_perm (fun i : PersonalInsight => i.created_at)
      _).mem_iff.1 hi
    have hi3 := List.mem_filter.1 hi2
    have hc := hi3.2
    simp only [Bool.and_eq_true, beq_iff_eq] at hc
    refine ⟨hc.1.2, hc.2, ?_⟩
    have := hc.1.1
    simpa using this
  · rw [List.forall_iff_forall_mem]
    intro i hi hid huser hact
    rw [insightsByIds]
    refine (sortDescBy_perm (fun i : PersonalInsight => i.created_at)
      _).mem_iff.2 ?_
    refine List.mem_filter.2 ⟨hi, ?_⟩
    simp [hid, huser, hact]
  · rw [insightsByIds]
    have hpw : (sortDescBy (fun i : PersonalInsight => i.created_at)
        (db_insights.filter (fun i =>
          ids.contains i.id && i.user == user && i.is_active))).Pairwise
          (fun i1 i2 => i2.created_at ≤ i1.created_at) :=
      pairwise_sortDescBy _ _
    exact hpw
  · rw [usageWeights, usageWeightsFrom, usageWeightsFrom]
    norm_num [max_def]

/-- C8 witness: at the fixture table the scenario evaluates concretely:
ids `[7, 99]` resolve to insight 7 alone with weight 1, and the result
order is created_at descending. -/
theorem C8_explicit_selection_witness :
    insightsByIds 1 [7, 99] [insightSeven, insightThree] = [insightSeven] ∧
    usageWeights [insightSeven] = [(insightSeven, 1)] ∧
    (insightsByIds 1 [7, 99] [insightSeven, insightThree]).Pairwise
      (fun i1 i2 => i2.created_at ≤ i1.created_at) := by
  have h := C8_explicit_selection 1 [7, 99] [insightSeven, insightThree]
  exact ⟨h.2.2.2.1, h.2.2.2.2, h.2.2.1⟩

/-- C9 counterexample: with no Match rows and no explicit insight ids,
`generate_narrative` answers HTTP 400 with an error payload — the
NoMatchesAvailable state is treated as a request error, not as the valid
HTTP 200 empty result the claim describes. -/
theorem C9_counterexample :
    generate_narrative exampleJob [] [] [] (some "t") =
      NarrativeResponse.badRequestNoInsights ∧
    narrativeStatus (generate_narrative exampleJob [] [] [] (some "t")) = 400 ∧
    (400 : ℕ) ≠ 200 := by
  have hsel : selectInsights exampleJob [] [] [] = [] := rfl
  have hr : generate_narrative exampleJob [] [] [] (some "t") =
      NarrativeResponse.badRequestNoInsights := by
    rw [generate_narrative, hsel]
    rfl
  exact ⟨hr, by rw [hr]; rfl, by decide⟩

/-- C9 (amended): the empty states of the matching endpoint are valid
non-failures — no eligible insight (none with an embedding, or none
clearing the threshold) yields HTTP 200 with an empty match list, while
a failed job embedding is a hard HTTP 500 error; but the empty narrative
selection (no Match rows and no explicit ids) yields HTTP 400 with an
error body, not 200. -/
theorem C9_empty_states (job : SearchedJob) (top_k : ℕ)
    (min_similarity : ℝ) (category_ids : List ℕ)
    (db1 db2 db3 : List PersonalInsight) (emb : List ℝ)
    (db_matches : List JobInsightMatch) (content : String) (use_ids : List ℕ)
    (hdesc : job.analysis_result ≠ "")
    (hembne : emb.isEmpty = false)
    (hq1 : insightsQuery job.user category_ids db1 = [])
    (hq2 : insightsQuery job.user category_ids db2 ≠ [])
    (hm2 : matchesCreated job (insightsQuery job.user category_ids db2)
      emb min_similarity = [])
    (hsel : selectInsights job use_ids db3 db_matches = []) :
    (match_insights_to_job job top_k min_similarity category_ids db1 (some emb)
        = MatchResponse.noInsights ∧
      matchStatus (match_insights_to_job job top_k min_similarity category_ids
        db1 (some emb)) = 200) ∧
    (match_insights_to_job job top_k min_similarity category_ids db1 none
        = MatchResponse.embeddingFailed ∧
      matchStatus (match_insights_to_job job top_k min_similarity category_ids
        db1 none) = 500) ∧
    (match_insights_to_job job top_k min_similarity category_ids db2 (some emb)
        = MatchResponse.ok 0 [] ∧
      matchStatus (match_insights_to_job job top_k min_similarity category_ids
        db2 (some emb)) = 200) ∧
    (generate_narrative job use_ids db3 db_matches (some content)
        = NarrativeResponse.badRequestNoInsights ∧
      narrativeStatus (generate_narrative job use_ids db3 db_matches
        (some content)) = 400) := by
  have h1 : match_insights_to_job job top_k min_similarity category_ids db1
      (some emb) = MatchResponse.noInsights := by
    rw [match_insights_to_job]
    simp [hdesc, hembne, hq1]
  have h2 : match_insights_to_job job top_k min_similarity category_ids db1
      none = MatchResponse.embeddingFailed := by
    rw [match_insights_to_job]
    simp [hdesc]
  have h3 : match_insights_to_job job top_k min_similarity category_ids db2
      (some emb) = MatchResponse.ok 0 [] := by
    rw [match_insights_to_job]
    simp [hdesc, hembne, hm2, List.isEmpty_iff, hq2, sortDescBy]
  have h4 : generate_narrative job use_ids db3 db_matches (some content)
      = NarrativeResponse.badRequestNoInsights := by
    rw [generate_narrative, hsel]
    rfl
  exact ⟨⟨h1, by rw [h1]; rfl⟩, ⟨h2, by rw [h2]; rfl⟩, ⟨h3, by rw [h3]; rfl⟩,
    ⟨h4, by rw [h4]; rfl⟩⟩

/-- C9 witness: at the fixture job (with a description), the empty-db
matching call answers 200 with the no-insights message, the failed
embedding answers 500, the below-threshold insight answers 200 with zero
matches, and the empty narrative selection answers 400. -/
theorem C9_empty_states_witness :
    matchStatus (match_insights_to_job exampleJob 10 0.3 [] []
      (some [1, 0])) = 200 ∧
    matchStatus (match_insights_to_job exampleJob 10 0.3 [] [] none) = 500 ∧
    matchStatus (match_insights_to_job exampleJob 10 0.3 [] [insightC]
      (some [1, 0])) = 200 ∧
    narrativeStatus (generate_narrative exampleJob [] [] [] (some "t")) = 400 := by
  have hq : insightsQuery exampleJob.user [] [insightC] = [insightC] := rfl
  have hC := scoreInsight_none_of_below exampleJob [1, 0] 0.3 insightC [-1, 0]
    rfl (by rw [calculate_similarity_unit_opp]; norm_num)
  have hm2 : matchesCreated exampleJob
      (insightsQuery exampleJob.user [] [insightC]) [1, 0] 0.3 = [] := by
    rw [hq, matchesCreated, List.filterMap_cons, hC]
    rfl
  have h := C9_empty_states exampleJob 10 0.3 [] [] [insightC] [] [1, 0] []
    "t" [] (by simp [exampleJob]) rfl rfl (by rw [hq]; simp) hm2 rfl
  exact ⟨h.1.2, h.2.1.2, h.2.2.1.2, h.2.2.2.2⟩

/-- C10: the persisted Match set keeps a row for every insight that
cleared the threshold — `top_k` truncation applies only to the response
list, so the stored rows for a job can exceed `top_k` — and the default
narrative selection reads the full persisted set, not the truncated
response. -/
theorem C10_persisted_full_set (db_matches : List JobInsightMatch)
    (job : SearchedJob) (insights : List PersonalInsight)
    (job_embedding : List ℝ) (min_similarity : ℝ) (top_k n : ℕ)
    (db_insights : List PersonalInsight)
    (hn : (matchesCreated job insights job_embedding min_similarity).length = n) :
    ((matchTransactionOutcome db_matches job insights job_embedding
        min_similarity true).filter
      (fun m => m.searched_job == job.id)).length = n ∧
    (topMatchesResponse job insights job_embedding min_similarity top_k).length
      ≤ top_k ∧
    selectInsights job [] db_insights
        (matchTransactionOutcome db_matches job insights job_embedding
          min_similarity true)
      = ((sortDescBy (fun m => m.final_score)
          (matchesCreated job insights job_embedding min_similarity)).take 5).map
        (fun m => m.matched_insight) := by
  have hnew : ∀ m ∈ matchesCreated job insights job_embedding min_similarity,
      m.searched_job = job.id := fun m hm => matchesCreated_searched_job hm
  have hfil : (matchTransactionOutcome db_matches job insights job_embedding
      min_similarity true).filter (fun m => m.searched_job == job.id) =
      matchesCreated job insights job_embedding min_similarity := by
    rw [matchTransactionOutcome, if_pos rfl]
    exact filter_replaceJobMatches db_matches job.id _ hnew
  refine ⟨by rw [hfil, hn], ?_, ?_⟩
  · rw [topMatchesResponse]
    exact List.length_take_le _ _
  · have hempty : (([] : List ℕ).isEmpty = true) := rfl
    rw [selectInsights, if_pos hempty, topMatchesForJob, hfil]

/-- C10 witness: with two insights of similarities `1` and `1/2` and
threshold `0.3`, both rows are persisted (two stored rows) while the
response with `top_k = 1` has at most one entry. -/
theorem C10_persisted_full_set_witness :
    (matchesCreated exampleJob [insightA, insightB] [1, 0] 0.3).length = 2 ∧
    ((matchTransactionOutcome [] exampleJob [insightA, insightB] [1, 0] 0.3
        true).filter (fun m => m.searched_job == exampleJob.id)).length = 2 ∧
    (topMatchesResponse exampleJob [insightA, insightB] [1, 0] 0.3 1).length
      ≤ 1 := by
  have hA := scoreInsight_of_eligible exampleJob [1, 0] 0.3 insightA [1, 0] rfl
    (by rw [calculate_similarity_unit_self]; norm_num)
  have hB := scoreInsight_of_eligible exampleJob [1, 0] 0.3 insightB [0, 1] rfl
    (by rw [calculate_similarity_unit_orth]; norm_num)
  have hmc : (matchesCreated exampleJob [insightA, insightB] [1, 0] 0.3).length
      = 2 := by
    rw [matchesCreated, List.filterMap_cons, hA, List.filterMap_cons, hB]
    rfl
  have h := C10_persisted_full_set [] exampleJob [insightA, insightB] [1, 0]
    0.3 1 2 [] hmc
  exact ⟨hmc, h.1, h.2.1⟩

end JobAnalyzer
